import Mathlib

/-!
# Marathon Production — verification of the workflow orchestrator

A shallow embedding of `src/app.py` (KernelLLC/marathon-production).

The core is `MarathonRobot.run_marathon`: a ten-step browser-automation
workflow.  Every interaction with the remote browser/UI is an external call
that either succeeds or raises an exception; we model one run against an
`Env` that fixes, for each such call, whether it succeeds (`none`) or raises
(`some errorMessage`), together with the two URL observations the code
branches on (`onLoginPage`, `stillOnLogin`).  The robot's own mutable state
(`playwright`, `browser` handles and the `is_running` flag) is threaded
explicitly, and the status events emitted over the websocket are collected
into a list, in emission order.

Pure helpers of the repository (`detect_product`, `validate_serials`,
`Statistics.record_batch`) are translated directly.
-/

namespace Marathon

/-- Severity of a status event (the `status` argument of `MarathonRobot.emit`,
`"info"` / `"success"` / `"error"` in the source). -/
inductive Severity
  | info
  | success
  | error
deriving DecidableEq, Repr

/-- One websocket status event: `emit_status(message, status)` in the source. -/
structure Event where
  message : String
  severity : Severity
deriving DecidableEq, Repr

/- The concrete events the source emits, with their literal messages. -/

def engineStartEv : Event := ⟨"Starting browser engine...", .info⟩
def browserLaunchEv : Event := ⟨"Launching headless browser...", .info⟩
def stepEv1 : Event := ⟨"📍 Step 1/10: Logging into Odoo...", .info⟩
def loginFailedEv : Event := ⟨"❌ Login failed - check credentials", .error⟩
def loggedInEv : Event := ⟨"✓ Logged in successfully", .info⟩
def stepEv2 : Event := ⟨"📍 Step 2/10: Loading Manufacturing Orders...", .info⟩
def stepEv3 : Event := ⟨"📍 Step 3/10: Creating new production...", .info⟩
def stepEv4 (product : String) : Event :=
  ⟨"📍 Step 4/10: Setting product to " ++ product ++ "...", .info⟩
def stepEv5 (quantity : Nat) : Event :=
  ⟨"📍 Step 5/10: Setting quantity to " ++ toString quantity ++ "...", .info⟩
def stepEv6 : Event := ⟨"📍 Step 6/10: Confirming order...", .info⟩
def stepEv7 : Event := ⟨"📍 Step 7/10: Opening serial numbers...", .info⟩
def stepEv8 : Event := ⟨"📍 Step 8/10: Entering serial numbers...", .info⟩
def stepEv9 : Event := ⟨"📍 Step 9/10: Generating serial numbers...", .info⟩
def stepEv10 : Event := ⟨"📍 Step 10/10: Marking as done...", .info⟩
def successEv : Event := ⟨"✅ Marathon completed successfully!", .success⟩
/-- The terminal event of the top-level `except` clause:
`self.emit(f"❌ Error: {str(e)}", "error")`. -/
def errorEv (m : String) : Event := ⟨"❌ Error: " ++ m, .error⟩

/-- The behaviour of the external world during one run.  Each `Option String`
field is one fallible external call made by `run_marathon`: `none` means the
call succeeds, `some m` means it raises an exception whose description is `m`.
The two `Bool` fields are the URL checks of step 1. -/
structure Env where
  /-- `sync_playwright().start()` in `ensure_browser`. -/
  engineStart : Option String
  /-- `self.playwright.chromium.launch(...)` in `ensure_browser`. -/
  browserLaunch : Option String
  /-- `self.browser.new_context()`. -/
  newContext : Option String
  /-- `context.new_page()`. -/
  newPage : Option String
  /-- Step 1: `page.goto(LOGIN_URL, ...)`. -/
  gotoLogin : Option String
  /-- Step 1: the check `"login" in page.url.lower()` after the goto. -/
  onLoginPage : Bool
  /-- Step 1: the two fills and the submit click of the login form. -/
  loginForm : Option String
  /-- Step 1: the check `"login" in page.url.lower()` after submitting. -/
  stillOnLogin : Bool
  /-- Step 2: `page.goto(STARTING_URL, ...)`. -/
  gotoStarting : Option String
  /-- Step 3: locating and clicking the New button. -/
  clickNew : Option String
  /-- Step 4: filling the product input and confirming. -/
  setProduct : Option String
  /-- Step 5: filling the quantity input and confirming. -/
  setQuantity : Option String
  /-- Step 6: clicking the Confirm button. -/
  clickConfirm : Option String
  /-- Step 7: the primary locator (`Register Production` / `Open`). -/
  openSerialsPrimary : Option String
  /-- Step 7: the fallback locator, tried when the primary raises. -/
  openSerialsFallback : Option String
  /-- Step 8: filling the serials textarea. -/
  fillSerials : Option String
  /-- Step 9: clicking the Generate button. -/
  clickGenerate : Option String
  /-- Step 10: the Mark-as-Done click.  In the source this sits inside its
  own `try: ... except: pass`, so a raise here is swallowed and has no
  observable effect on events or outcome. -/
  markDone : Option String
  /-- The confirmation-dialog click after step 10, also `try/except: pass`. -/
  applyDialog : Option String
  /-- `page.close()` in the `finally` block. -/
  pageClose : Option String
  /-- `context.close()` in the `finally` block. -/
  contextClose : Option String
deriving DecidableEq, Repr

/-- The mutable state of one `MarathonRobot` instance: whether the engine
handle (`self.playwright`) and browser handle (`self.browser`) exist, and the
single-flight flag `self.is_running`. -/
structure Robot where
  playwright : Bool
  browser : Bool
  is_running : Bool
deriving DecidableEq, Repr

/-- A robot as constructed by `MarathonRobot.__init__`: no engine, no
browser, not running. -/
def freshRobot : Robot := ⟨false, false, false⟩

/-- A robot whose engine and browser handles already exist. -/
def readyRobot : Robot := ⟨true, true, false⟩

/-- Result of `ensure_browser`: the events it emitted, the handle state it
leaves behind, and whether it raised (`err = some m`). -/
structure EnsureRes where
  events : List Event
  playwright : Bool
  browser : Bool
  err : Option String
deriving DecidableEq, Repr

/-- `MarathonRobot.ensure_browser`: two independent lazy-creation blocks.
If starting the engine raises, the launch block is never reached; each block
emits its notice before attempting the creation, so the notice is emitted
even when the creation then fails. -/
def ensure_browser (e : Env) (r : Robot) : EnsureRes :=
  if r.playwright then
    if r.browser then ⟨[], true, true, none⟩
    else
      match e.browserLaunch with
      | some m => ⟨[browserLaunchEv], true, false, some m⟩
      | none => ⟨[browserLaunchEv], true, true, none⟩
  else
    match e.engineStart with
    | some m => ⟨[engineStartEv], false, r.browser, some m⟩
    | none =>
      if r.browser then ⟨[engineStartEv], true, true, none⟩
      else
        match e.browserLaunch with
        | some m => ⟨[engineStartEv, browserLaunchEv], true, false, some m⟩
        | none => ⟨[engineStartEv, browserLaunchEv], true, true, none⟩

/-- `MarathonRobot.cleanup`: closes the browser and stops the engine with
errors swallowed, then unconditionally (`finally`) resets both handles. -/
def cleanup (r : Robot) : Robot :=
  { r with playwright := false, browser := false }

/-- How the `try` body of `run_marathon` ends: reaching `success = True`,
the early `return False` of a failed login, or an uncaught exception. -/
inductive BodyOutcome
  | ok
  | loginFailed
  | raised (msg : String)
deriving DecidableEq, Repr

def outcomeOk : BodyOutcome → Bool
  | .ok => true
  | _ => false

def catchEvents : BodyOutcome → List Event
  | .raised m => [errorEv m]
  | _ => []

/-- Run a linear sequence of (emit marker, then perform a fallible action)
steps: the marker is emitted before the action, so a raising action still
has its marker in the trace; a raise stops the sequence. -/
def runSteps : List (Event × Option String) → List Event × Option String
  | [] => ([], none)
  | (ev, act) :: rest =>
    match act with
    | some m => ([ev], some m)
    | none =>
      let r := runSteps rest
      (ev :: r.1, r.2)

/-- Step 7's action: the primary locator is tried first; its exception is
caught and the fallback is tried, so step 7 raises only if the primary
raised and the fallback raises too (with the fallback's message). -/
def openSerialsAct (e : Env) : Option String :=
  match e.openSerialsPrimary with
  | none => none
  | some _ => e.openSerialsFallback

/-- Steps 2 through 10 plus the final success emission, in source order.
Step 10's clicks (`markDone`) and the confirmation dialog (`applyDialog`)
are wrapped in `try/except: pass` in the source, so they contribute no
fallible action here, and the success event is an infallible emit. -/
def tailSteps (e : Env) (product : String) (quantity : Nat) :
    List (Event × Option String) :=
  [ (stepEv2, e.gotoStarting),
    (stepEv3, e.clickNew),
    (stepEv4 product, e.setProduct),
    (stepEv5 quantity, e.setQuantity),
    (stepEv6, e.clickConfirm),
    (stepEv7, openSerialsAct e),
    (stepEv8, e.fillSerials),
    (stepEv9, e.clickGenerate),
    (stepEv10, none),
    (successEv, none) ]

def stepsOutcome : Option String → BodyOutcome
  | some m => .raised m
  | none => .ok

/-- Everything after the login-page branch of step 1: the unconditional
`✓ Logged in successfully` emit, then steps 2–10. -/
def afterLogin (e : Env) (product : String) (quantity : Nat) :
    List Event × BodyOutcome :=
  let t := runSteps (tailSteps e product quantity)
  (loggedInEv :: t.1, stepsOutcome t.2)

/-- The ten steps of the `try` body, starting at step 1 (login).  If the
page still shows the login URL after submitting, the source emits the
login-failed error and executes `return False`. -/
def stepEvents (e : Env) (product : String) (quantity : Nat) :
    List Event × BodyOutcome :=
  match e.gotoLogin with
  | some m => ([stepEv1], .raised m)
  | none =>
    if e.onLoginPage then
      match e.loginForm with
      | some m => ([stepEv1], .raised m)
      | none =>
        if e.stillOnLogin then
          ([stepEv1, loginFailedEv], .loginFailed)
        else
          let t := afterLogin e product quantity
          (stepEv1 :: t.1, t.2)
    else
      let t := afterLogin e product quantity
      (stepEv1 :: t.1, t.2)

/-- The resource-acquisition phase and the step body of the `try` block:
`ensure_browser`, `browser.new_context()`, `context.new_page()`, then the
steps.  Records which per-run resources were created before any raise. -/
structure AcquireRes where
  ctxCreated : Bool
  pageCreated : Bool
  events : List Event
  outcome : BodyOutcome
deriving DecidableEq, Repr

def acquire (e : Env) (r : Robot) (product : String) (quantity : Nat) :
    AcquireRes :=
  match (ensure_browser e r).err with
  | some m => ⟨false, false, [], .raised m⟩
  | none =>
    match e.newContext with
    | some m => ⟨false, false, [], .raised m⟩
    | none =>
      match e.newPage with
      | some m => ⟨true, false, [], .raised m⟩
      | none =>
        let b := stepEvents e product quantity
        ⟨true, true, b.1, b.2⟩

/-- The observable trace of one `run_marathon` call: final robot state,
emitted events in order, return value, which per-run resources were created,
which close calls the `finally` block attempted, and how many times the
`finally` block ran. -/
structure RunResult where
  robot : Robot
  events : List Event
  result : Bool
  ctxCreated : Bool
  pageCreated : Bool
  pageCloseAttempted : Bool
  ctxCloseAttempted : Bool
  finalizerCount : Nat
deriving DecidableEq, Repr

/-- `MarathonRobot.run_marathon(product, serials, odoo_email, odoo_password)`.

Faithful control flow: the guard `if self.is_running: return False` exits
before the `try`, so the rejected call emits nothing, changes nothing and
never runs the `finally` block.  Otherwise the flag is set, the body runs,
an uncaught exception is converted into one terminal error event, and the
`finally` block clears the flag and then closes page and context inside a
single `try/except: pass` — so an exception from `page.close()` skips
`context.close()`. -/
def run_marathon (e : Env) (r : Robot) (product : String)
    (serials : List String) : RunResult :=
  if r.is_running then
    ⟨r, [], false, false, false, false, false, 0⟩
  else
    let a := acquire e r product serials.length
    { robot := ⟨(ensure_browser e r).playwright, (ensure_browser e r).browser, false⟩
      events := (ensure_browser e r).events ++ a.events ++ catchEvents a.outcome
      result := outcomeOk a.outcome
      ctxCreated := a.ctxCreated
      pageCreated := a.pageCreated
      pageCloseAttempted := a.pageCreated
      ctxCloseAttempted := a.ctxCreated && (!a.pageCreated || e.pageClose.isNone)
      finalizerCount := 1 }

/-- The `run_task` closure of `handle_marathon`: each websocket request
constructs a fresh `MarathonRobot`, runs it, and calls `robot.cleanup()` in
a `finally` block.  Returns the run trace and the robot after cleanup. -/
def run_task (e : Env) (product : String) (serials : List String) :
    RunResult × Robot :=
  let t := run_marathon e freshRobot product serials
  (t, cleanup t.robot)

/-! ## Predicates describing an environment -/

/-- Resource acquisition succeeds: `ensure_browser` does not raise (for the
given robot state), and neither does creating the context or the page. -/
def acqOk (e : Env) (r : Robot) : Bool :=
  (ensure_browser e r).err.isNone && e.newContext.isNone && e.newPage.isNone

/-- Step 1 completes: the goto does not raise and, when the login form is
shown, filling/submitting does not raise and authentication succeeds. -/
def step1Ok (e : Env) : Bool :=
  e.gotoLogin.isNone &&
    (!e.onLoginPage || (e.loginForm.isNone && !e.stillOnLogin))

/-- Step `k` completes without raising.  Step 10 cannot raise in the source:
both its click and the confirmation dialog swallow their exceptions. -/
def stepOk (e : Env) : Nat → Bool
  | 1 => step1Ok e
  | 2 => e.gotoStarting.isNone
  | 3 => e.clickNew.isNone
  | 4 => e.setProduct.isNone
  | 5 => e.setQuantity.isNone
  | 6 => e.clickConfirm.isNone
  | 7 => (openSerialsAct e).isNone
  | 8 => e.fillSerials.isNone
  | 9 => e.clickGenerate.isNone
  | _ => true

/-- Steps 1 through `k` all complete. -/
def stepsOkUpTo (e : Env) : Nat → Bool
  | 0 => true
  | k + 1 => stepsOkUpTo e k && stepOk e (k + 1)

/-- All ten steps complete without raising (step 10 trivially so). -/
def allStepsOk (e : Env) : Bool :=
  step1Ok e && e.gotoStarting.isNone && e.clickNew.isNone &&
    e.setProduct.isNone && e.setQuantity.isNone && e.clickConfirm.isNone &&
    (openSerialsAct e).isNone && e.fillSerials.isNone && e.clickGenerate.isNone

/-- The run gets through acquisition and steps `1..k-1` and then step `k`
raises (or, for `k = 1`, authentication fails). -/
def failsAtStep (e : Env) (r : Robot) (k : Nat) : Bool :=
  acqOk e r && stepsOkUpTo e (k - 1) && !(stepOk e k)

/-! ## Expected event traces -/

/-- The ten step-marker events, in step order. -/
def markerList (product : String) (quantity : Nat) : List Event :=
  [stepEv1, stepEv2, stepEv3, stepEv4 product, stepEv5 quantity,
   stepEv6, stepEv7, stepEv8, stepEv9, stepEv10]

/-- The twelve events of a successful run (once resources exist): the ten
step markers in order, the login-confirmation notice after step 1, and the
terminal success event. -/
def successEvents (product : String) (quantity : Nat) : List Event :=
  [stepEv1, loggedInEv, stepEv2, stepEv3, stepEv4 product, stepEv5 quantity,
   stepEv6, stepEv7, stepEv8, stepEv9, stepEv10, successEv]

/-- The events of a run that fails at step `k`, up to but excluding the
terminal error event: the first `k` step markers (with the
login-confirmation notice after step 1 once step 1 has completed). -/
def failEvents (k : Nat) (product : String) (quantity : Nat) : List Event :=
  if k ≤ 1 then [stepEv1]
  else [stepEv1, loggedInEv] ++ ((markerList product quantity).drop 1).take (k - 1)

/-! ## Environments used as concrete test inputs -/

/-- Every external call succeeds; the login page is shown and
authentication succeeds. -/
def envAllOk : Env :=
  { engineStart := none, browserLaunch := none, newContext := none,
    newPage := none, gotoLogin := none, onLoginPage := true,
    loginForm := none, stillOnLogin := false, gotoStarting := none,
    clickNew := none, setProduct := none, setQuantity := none,
    clickConfirm := none, openSerialsPrimary := none,
    openSerialsFallback := none, fillSerials := none, clickGenerate := none,
    markDone := none, applyDialog := none, pageClose := none,
    contextClose := none }

/-- All ok except launching the browser raises. -/
def envLaunchFail : Env := { envAllOk with browserLaunch := some "boom" }

/-- All ok except step 3 (clicking New) raises. -/
def envFailStep3 : Env := { envAllOk with clickNew := some "no New button" }

/-- All ok except the Mark-as-Done click of step 10 raises (swallowed by
the source's `try/except: pass`). -/
def envDoneFail : Env := { envAllOk with markDone := some "timeout" }

/-- All ok except `page.close()` in the `finally` block raises. -/
def envPageCloseFail : Env := { envAllOk with pageClose := some "close failed" }

/-! ## Serial intake (`clean_serials` context, `validate_serials`,
`detect_product`) -/

/-- Python `str.upper()` for the ASCII serials handled here. -/
def strToUpper (s : String) : String := ⟨s.data.map Char.toUpper⟩

/-- Python `str.startswith(pre)`: character-wise prefix test. -/
def strStartsWith (s pre : String) : Bool := pre.data.isPrefixOf s.data

/-- Python `str.strip()` restricted to ASCII whitespace. -/
def strip (s : String) : String :=
  ⟨((s.data.dropWhile Char.isWhitespace).reverse.dropWhile
      Char.isWhitespace).reverse⟩

/-- The ordered product-detection table of `detect_product`. -/
def productPatterns : List (String × List String) :=
  [ ("HEX-MOD-DHT", ["HEX-MOD-DHT", "HEXMODDHT"]),
    ("HEX-MOD-LHT", ["HEX-MOD-LHT", "HEXMODLHT"]),
    ("HEX-MOD-SHT", ["HEX-MOD-SHT", "HEXMODSHT"]),
    ("HEX-MOD-SDP", ["HEX-MOD-SDP", "HEXMODSDP"]),
    ("HEX-MOD-ULT", ["HEX-MOD-ULT", "HEXMODULT"]),
    ("HEX-T-C", ["HEX-T-C", "HEXTC"]),
    ("HEX-T-R", ["HEX-T-R", "HEXTR"]),
    ("HEX-P", ["HEX-P", "HEXP"]),
    ("HEX-N", ["HEX-N", "HEXN"]),
    ("HEX-W", ["HEX-W", "HEXW"]),
    ("HEX-G", ["HEX-G", "HEXG"]),
    ("HEX-L-S", ["HEX-L-S", "HEXLS"]),
    ("HEX-L-Z", ["HEX-L-Z", "HEXLZ"]) ]

/-- `detect_product(serial)`: upper-case the serial, scan the table in
order, return the first product one of whose listed forms the serial starts
with; `None` when nothing matches. -/
def detect_product (serial : String) : Option String :=
  let serialUpper := strToUpper serial
  (productPatterns.find? fun pr =>
    pr.2.any fun p => strStartsWith serialUpper p).map (·.1)

/-- The result dict of `validate_serials`. -/
structure ValidationRes where
  valid : List String
  duplicates : List String
  invalid : List (String × String)
deriving DecidableEq, Repr

/-- The character class `[A-Za-z0-9._-]` of the validation regex. -/
def allowedChar (c : Char) : Bool :=
  c.isAlpha || c.isDigit || c == '.' || c == '_' || c == '-'

/-- `re.match(r"^[A-Za-z0-9._-]+$", s)` succeeds: nonempty and all
characters allowed. -/
def validChars (s : String) : Bool :=
  !s.data.isEmpty && s.data.all allowedChar

/-- One iteration of the `for serial in serials` loop of
`validate_serials`, threading the `seen` set and the result lists. -/
def validateStep (acc : List String × ValidationRes) (serial0 : String) :
    List String × ValidationRes :=
  let seen := acc.1
  let res := acc.2
  let serial := strip serial0
  if serial.data.isEmpty then acc
  else if serial ∈ seen then
    (seen, { res with duplicates := res.duplicates ++ [serial] })
  else
    let seen' := serial :: seen
    if serial.length < 2 then
      (seen', { res with invalid := res.invalid ++ [(serial, "Too short")] })
    else if serial.length > 50 then
      (seen', { res with invalid := res.invalid ++ [(serial, "Too long")] })
    else if !validChars serial then
      (seen', { res with invalid := res.invalid ++ [(serial, "Invalid characters")] })
    else
      (seen', { res with valid := res.valid ++ [serial] })

/-- `validate_serials(serials)`. -/
def validate_serials (serials : List String) : ValidationRes :=
  (serials.foldl validateStep ([], ⟨[], [], []⟩)).2

/-! ## Statistics (`Statistics.record_batch`) -/

/-- One per-day bucket of `data['daily']`. -/
structure DayStats where
  serials : Nat
  batches : Nat
  success : Nat
  errors : Nat
deriving DecidableEq, Repr

/-- The statistics JSON document, with the two dicts as association lists. -/
structure StatsData where
  daily : List (String × DayStats)
  products : List (String × Nat)
  total_serials : Nat
  total_batches : Nat
  success_count : Nat
  error_count : Nat
deriving DecidableEq, Repr

/-- The default document `Statistics.load` returns when no file exists. -/
def emptyStats : StatsData := ⟨[], [], 0, 0, 0, 0⟩

/-- The zero day bucket inserted for a new day. -/
def zeroDay : DayStats := ⟨0, 0, 0, 0⟩

/-- The per-day updates of `record_batch` on today's bucket. -/
def bumpDay (serial_count : Nat) (success : Bool) (d : DayStats) : DayStats :=
  { serials := d.serials + serial_count
    batches := d.batches + 1
    success := d.success + (if success then 1 else 0)
    errors := d.errors + (if success then 0 else 1) }

/-- Update the value at `key` in an association list (dict update). -/
def updateAssoc {α : Type} (key : String) (f : α → α) :
    List (String × α) → List (String × α)
  | [] => []
  | (k, v) :: rest =>
    if k = key then (k, f v) :: rest else (k, v) :: updateAssoc key f rest

/-- Dict key-membership test. -/
def hasKey {α : Type} (key : String) (l : List (String × α)) : Bool :=
  l.any fun p => p.1 == key

/-- `Statistics.record_batch(serial_count, product, success)`, with the
current day (`datetime.now().strftime("%Y-%m-%d")`) as an explicit
parameter and the loaded/saved JSON document threaded as state. -/
def record_batch (today : String) (serial_count : Nat) (product : String)
    (success : Bool) (data : StatsData) : StatsData :=
  let daily0 :=
    if hasKey today data.daily then data.daily
    else data.daily ++ [(today, zeroDay)]
  let products0 :=
    if hasKey product data.products then data.products
    else data.products ++ [(product, 0)]
  { daily := updateAssoc today (bumpDay serial_count success) daily0
    products := updateAssoc product (· + serial_count) products0
    total_serials := data.total_serials + serial_count
    total_batches := data.total_batches + 1
    success_count := data.success_count + (if success then 1 else 0)
    error_count := data.error_count + (if success then 0 else 1) }

/-- One recorded call: (today, serial_count, product, success). -/
def applyCall (d : StatsData) (c : String × Nat × String × Bool) : StatsData :=
  record_batch c.1 c.2.1 c.2.2.1 c.2.2.2 d

/-- The counting invariant: run totals agree, and every day bucket's batch
count is its success count plus its error count. -/
def statsInvariant (d : StatsData) : Prop :=
  d.total_batches = d.success_count + d.error_count ∧
    ∀ p ∈ d.daily, p.2.batches = p.2.success + p.2.errors

/-! ## Helper lemmas -/

lemma outcomeOk_stepsOutcome (o : Option String) :
    outcomeOk (stepsOutcome o) = o.isNone := by
  cases o <;> rfl

lemma runSteps_isNone (l : List (Event × Option String)) :
    (runSteps l).2.isNone = l.all fun p => p.2.isNone := by
  induction l with
  | nil => rfl
  | cons hd tl ih =>
    obtain ⟨ev, act⟩ := hd
    cases act with
    | some m => simp [runSteps]
    | none => simp [runSteps, ih]

lemma runSteps_of_all {l : List (Event × Option String)}
    (h : (l.all fun p => p.2.isNone) = true) :
    runSteps l = (l.map Prod.fst, none) := by
  induction l with
  | nil => rfl
  | cons hd tl ih =>
    obtain ⟨ev, act⟩ := hd
    cases act with
    | some m => simp at h
    | none =>
      simp only [List.all_cons, Option.isNone_none, Bool.true_and] at h
      simp [runSteps, ih h]

lemma outcomeOk_stepEvents (e : Env) (p : String) (q : Nat) :
    outcomeOk (stepEvents e p q).2 = allStepsOk e := by
  cases hG : e.gotoLogin with
  | some m =>
    simp [stepEvents, hG, outcomeOk, allStepsOk, step1Ok]
  | none =>
    cases hL : e.onLoginPage with
    | true =>
      cases hF : e.loginForm with
      | some m =>
        simp [stepEvents, hG, hL, hF, outcomeOk, allStepsOk, step1Ok]
      | none =>
        cases hS : e.stillOnLogin with
        | true =>
          simp [stepEvents, hG, hL, hF, hS, outcomeOk, allStepsOk, step1Ok]
        | false =>
          simp [stepEvents, hG, hL, hF, hS, afterLogin, outcomeOk_stepsOutcome,
            runSteps_isNone, tailSteps, allStepsOk, step1Ok, Bool.and_assoc]
    | false =>
      simp [stepEvents, hG, hL, afterLogin, outcomeOk_stepsOutcome,
        runSteps_isNone, tailSteps, allStepsOk, step1Ok, Bool.and_assoc]

lemma stepEvents_of_ok {e : Env} (p : String) (q : Nat)
    (h : allStepsOk e = true) : stepEvents e p q = (successEvents p q, .ok) := by
  simp only [allStepsOk, Bool.and_eq_true, Option.isNone_iff_eq_none] at h
  obtain ⟨⟨⟨⟨⟨⟨⟨⟨h1, h2⟩, h3⟩, h4⟩, h5⟩, h6⟩, h7⟩, h8⟩, h9⟩ := h
  simp only [step1Ok, Bool.and_eq_true, Option.isNone_iff_eq_none] at h1
  obtain ⟨hG, hRest⟩ := h1
  have hrun : runSteps (tailSteps e p q) =
      ([stepEv2, stepEv3, stepEv4 p, stepEv5 q, stepEv6, stepEv7, stepEv8,
        stepEv9, stepEv10, successEv], none) := by
    simp [tailSteps, runSteps, h2, h3, h4, h5, h6, h7, h8, h9]
  cases hL : e.onLoginPage with
  | true =>
    rw [hL] at hRest
    simp only [Bool.not_true, Bool.false_or, Bool.and_eq_true,
      Option.isNone_iff_eq_none, Bool.not_eq_true'] at hRest
    obtain ⟨hF, hS⟩ := hRest
    simp [stepEvents, hG, hL, hF, hS, afterLogin, hrun, successEvents,
      stepsOutcome]
  | false =>
    simp [stepEvents, hG, hL, afterLogin, hrun, successEvents, stepsOutcome]

lemma run_marathon_result_eq (e : Env) (r : Robot) (p : String)
    (s : List String) (hr : r.is_running = false) :
    (run_marathon e r p s).result = (acqOk e r && allStepsOk e) := by
  simp only [run_marathon, hr, Bool.false_eq_true, if_false]
  cases hE : (ensure_browser e r).err with
  | some m => simp [acquire, hE, acqOk, outcomeOk]
  | none =>
    cases hC : e.newContext with
    | some m => simp [acquire, hE, hC, acqOk, outcomeOk]
    | none =>
      cases hP : e.newPage with
      | some m => simp [acquire, hE, hC, hP, acqOk, outcomeOk]
      | none =>
        simp [acquire, hE, hC, hP, acqOk, outcomeOk_stepEvents]

lemma acquire_of_ok {e : Env} {r : Robot} (p : String) (q : Nat)
    (hacq : acqOk e r = true) (hsteps : allStepsOk e = true) :
    acquire e r p q = ⟨true, true, successEvents p q, .ok⟩ := by
  simp only [acqOk, Bool.and_eq_true, Option.isNone_iff_eq_none] at hacq
  obtain ⟨⟨hE, hC⟩, hP⟩ := hacq
  simp [acquire, hE, hC, hP, stepEvents_of_ok p q hsteps]

lemma ensure_browser_update (e : Env) (x y : Option String) (r : Robot) :
    ensure_browser { e with pageClose := x, contextClose := y } r =
      ensure_browser e r := by
  obtain ⟨pw, br, ir⟩ := r
  cases pw <;> cases br <;> rfl

lemma stepEvents_update (e : Env) (x y : Option String) (p : String) (q : Nat) :
    stepEvents { e with pageClose := x, contextClose := y } p q =
      stepEvents e p q :=
  rfl

lemma acquire_update (e : Env) (x y : Option String) (r : Robot) (p : String)
    (q : Nat) :
    acquire { e with pageClose := x, contextClose := y } r p q =
      acquire e r p q := by
  simp only [acquire, ensure_browser_update, stepEvents_update]

lemma mem_updateAssoc {α : Type} {key : String} {f : α → α} :
    ∀ {l : List (String × α)} {x : String × α}, x ∈ updateAssoc key f l →
      x ∈ l ∨ ∃ y ∈ l, x = (y.1, f y.2) := by
  intro l
  induction l with
  | nil => intro x hx; simp [updateAssoc] at hx
  | cons hd tl ih =>
    intro x hx
    obtain ⟨k, v⟩ := hd
    by_cases hk : k = key
    · simp only [updateAssoc, if_pos hk, List.mem_cons] at hx
      rcases hx with h | h
      · exact Or.inr ⟨(k, v), by simp, by simp [h]⟩
      · exact Or.inl (List.mem_cons_of_mem _ h)
    · simp only [updateAssoc, if_neg hk, List.mem_cons] at hx
      rcases hx with h | h
      · exact Or.inl (by simp [h])
      · rcases ih h with h' | ⟨y, hy, hxy⟩
        · exact Or.inl (List.mem_cons_of_mem _ h')
        · exact Or.inr ⟨y, List.mem_cons_of_mem _ hy, hxy⟩

lemma record_batch_invariant (t : String) (n : Nat) (pr : String) (b : Bool)
    {d : StatsData} (h : statsInvariant d) :
    statsInvariant (record_batch t n pr b d) := by
  obtain ⟨htot, hday⟩ := h
  constructor
  · cases b <;> simp [record_batch, htot] <;> omega
  · intro p hp
    simp only [record_batch] at hp
    have hday0 : ∀ p ∈ (if hasKey t d.daily then d.daily
        else d.daily ++ [(t, zeroDay)]), p.2.batches = p.2.success + p.2.errors := by
      intro p hp
      by_cases hk : hasKey t d.daily
      · rw [if_pos hk] at hp; exact hday p hp
      · rw [if_neg hk] at hp
        rcases List.mem_append.mp hp with h | h
        · exact hday p h
        · simp only [List.mem_singleton] at h
          simp [h, zeroDay]
    rcases mem_updateAssoc hp with h | ⟨y, hy, hxy⟩
    · exact hday0 p h
    · have := hday0 y hy
      subst hxy
      cases b <;> simp [bumpDay, this] <;> omega

/-- C10: `Statistics.record_batch` preserves the counting invariant: after
any sequence of `record_batch` calls starting from the default (empty)
statistics document, `total_batches = success_count + error_count`, and for
each day bucket, `batches = success + errors`. -/
theorem record_batch_counting_invariant
    (calls : List (String × Nat × String × Bool)) :
    statsInvariant (calls.foldl applyCall emptyStats) := by
  have aux : ∀ (cs : List (String × Nat × String × Bool)) (d : StatsData),
      statsInvariant d → statsInvariant (cs.foldl applyCall d) := by
    intro cs
    induction cs with
    | nil => intro d h; exact h
    | cons c tl ih =>
      intro d h
      exact ih _ (record_batch_invariant _ _ _ _ h)
  exact aux calls emptyStats ⟨rfl, by simp [emptyStats]⟩

lemma exists_some_of_isNone_false {o : Option String} (h : o.isNone = false) :
    ∃ m, o = some m := by
  cases o with
  | none => simp at h
  | some m => exact ⟨m, rfl⟩

lemma run_fail_tail (e : Env) (r : Robot) (p : String) (s : List String)
    (hr : r.is_running = false)
    (hE : (ensure_browser e r).err = none) (hC : e.newContext = none)
    (hP : e.newPage = none) (hG : e.gotoLogin = none)
    (hLok : (!e.onLoginPage || (e.loginForm.isNone && !e.stillOnLogin)) = true)
    {evs : List Event} {m : String}
    (hrun : runSteps (tailSteps e p s.length) = (evs, some m)) :
    (run_marathon e r p s).result = false ∧
      (run_marathon e r p s).events =
        (ensure_browser e r).events ++ (stepEv1 :: loggedInEv :: evs) ++ [errorEv m] := by
  cases hL : e.onLoginPage with
  | false =>
    constructor <;>
      simp [run_marathon, hr, acquire, hE, hC, hP, stepEvents, hG, hL,
        afterLogin, hrun, stepsOutcome, outcomeOk, catchEvents]
  | true =>
    rw [hL] at hLok
    simp only [Bool.not_true, Bool.false_or, Bool.and_eq_true,
      Option.isNone_iff_eq_none, Bool.not_eq_true'] at hLok
    obtain ⟨hF, hS⟩ := hLok
    constructor <;>
      simp [run_marathon, hr, acquire, hE, hC, hP, stepEvents, hG, hL, hF, hS,
        afterLogin, hrun, stepsOutcome, outcomeOk, catchEvents]

/-- C1 (counterexample): the claimed process-wide single-flight rejection
fails on the code.  `handle_marathon` constructs a fresh `MarathonRobot`
for every request, so the guard `if self.is_running` of a second request
always reads the fresh instance's own flag (`False`), whatever other run is
in flight: instead of being rejected synchronously with `false`, no events
and no state change, the second request proceeds through a complete run
(here: returns `true`, emits 14 events, and runs the cleanup block). -/
theorem second_request_not_rejected :
    (run_task envAllOk "HEX-P" ["SN001"]).1.result = true ∧
      (run_task envAllOk "HEX-P" ["SN001"]).1.events.length = 14 ∧
      (run_task envAllOk "HEX-P" ["SN001"]).1.finalizerCount = 1 :=
  ⟨rfl, rfl, rfl⟩

/-- C1 (amended): the single-flight guard is per `MarathonRobot` instance,
not process-wide: `run_marathon` on an instance whose `is_running` flag is
set returns `false` synchronously with no events, no state change, and no
cleanup — the request is not queued.  Because `handle_marathon` creates a
fresh instance per request, a second request during an active run on
another instance is not rejected. -/
theorem single_flight_per_instance (e : Env) (r : Robot) (p : String)
    (s : List String) (hr : r.is_running = true) :
    run_marathon e r p s = ⟨r, [], false, false, false, false, false, 0⟩ := by
  simp [run_marathon, hr]

theorem single_flight_per_instance_witness :
    (⟨true, true, true⟩ : Robot).is_running = true ∧
      run_marathon envAllOk ⟨true, true, true⟩ "HEX-P" ["SN001"] =
        ⟨⟨true, true, true⟩, [], false, false, false, false, false, 0⟩ :=
  ⟨rfl, single_flight_per_instance envAllOk ⟨true, true, true⟩ "HEX-P" ["SN001"] rfl⟩

/-- C2 (counterexample): a raise in step 10 does not make the outcome
`false`.  The Mark-as-Done click sits inside `try: ... except: pass`, so in
an environment where everything succeeds except step 10's click, the run
still returns `true`. -/
theorem step10_error_still_true :
    envDoneFail.markDone = some "timeout" ∧
      (run_marathon envDoneFail readyRobot "HEX-P" ["SN001"]).result = true :=
  ⟨rfl, rfl⟩

/-- C2 (amended): `run_marathon` returns `true` iff resource acquisition
succeeds and steps 1 through 9 complete without raising (with
authentication succeeding in step 1); exceptions raised by step 10's
mark-as-done activation or by the confirmation dialog are swallowed by the
source's local `try/except: pass`, so the outcome and the events are
independent of them. -/
theorem run_true_iff_steps_one_to_nine (e : Env) (r : Robot) (p : String)
    (s : List String) (hr : r.is_running = false) :
    ((run_marathon e r p s).result = true ↔
      (acqOk e r && allStepsOk e) = true) ∧
      ∀ d a, (run_marathon { e with markDone := d, applyDialog := a } r p s).result =
        (run_marathon e r p s).result := by
  constructor
  · rw [run_marathon_result_eq e r p s hr]
  · intro d a
    rfl

theorem run_true_iff_steps_one_to_nine_witness :
    readyRobot.is_running = false ∧
      (((run_marathon envAllOk readyRobot "HEX-P" ["SN001"]).result = true ↔
        (acqOk envAllOk readyRobot && allStepsOk envAllOk) = true) ∧
      ∀ d a, (run_marathon { envAllOk with markDone := d, applyDialog := a }
          readyRobot "HEX-P" ["SN001"]).result =
        (run_marathon envAllOk readyRobot "HEX-P" ["SN001"]).result) :=
  ⟨rfl, run_true_iff_steps_one_to_nine envAllOk readyRobot "HEX-P" ["SN001"] rfl⟩

/-- C3 (counterexample): a successful run does not always emit exactly
10+2 events.  `handle_marathon` gives every request a fresh robot, so a
successful run starts the engine and launches the browser, emitting their
two notices first: 14 events, not 12, with the run returning `true`. -/
theorem first_run_has_fourteen_events :
    (run_marathon envAllOk freshRobot "HEX-P" ["SN001", "SN002"]).result = true ∧
      (run_marathon envAllOk freshRobot "HEX-P" ["SN001", "SN002"]).events.length = 14 ∧
      (run_marathon envAllOk freshRobot "HEX-P" ["SN001", "SN002"]).events.length ≠ 12 :=
  ⟨rfl, rfl, by decide⟩

/-- C3 (amended): for every successful run, the events are the first-use
engine/browser startup notices followed by exactly the twelve events of
`successEvents`, in step order — the ten step markers, the
login-confirmation notice, and a final success-severity event — and the
run returns `true`.  When the engine and browser handles already exist the
startup notices are absent and exactly 12 events are emitted. -/
theorem successful_run_events (e : Env) (r : Robot) (p : String)
    (s : List String) (hr : r.is_running = false) (hacq : acqOk e r = true)
    (hsteps : allStepsOk e = true) :
    (run_marathon e r p s).result = true ∧
      (run_marathon e r p s).events =
        (ensure_browser e r).events ++ successEvents p s.length ∧
      (successEvents p s.length).length = 12 ∧
      (successEvents p s.length).getLast? = some successEv ∧
      successEv.severity = .success ∧
      (r.playwright = true → r.browser = true →
        (run_marathon e r p s).events = successEvents p s.length) := by
  have ha := acquire_of_ok p s.length hacq hsteps
  refine ⟨?_, ?_, rfl, ?_, rfl, ?_⟩
  · simp [run_marathon, hr, ha, outcomeOk]
  · simp [run_marathon, hr, ha, catchEvents]
  · rfl
  · intro hpw hbr
    have hens : ensure_browser e r = ⟨[], true, true, none⟩ := by
      simp [ensure_browser, hpw, hbr]
    simp [run_marathon, hr, ha, catchEvents, hens]

theorem successful_run_events_witness :
    readyRobot.is_running = false ∧ acqOk envAllOk readyRobot = true ∧
      allStepsOk envAllOk = true ∧
      ((run_marathon envAllOk readyRobot "HEX-P" ["SN001"]).result = true ∧
        (run_marathon envAllOk readyRobot "HEX-P" ["SN001"]).events =
          (ensure_browser envAllOk readyRobot).events ++
            successEvents "HEX-P" ["SN001"].length ∧
        (successEvents "HEX-P" ["SN001"].length).length = 12 ∧
        (successEvents "HEX-P" ["SN001"].length).getLast? = some successEv ∧
        successEv.severity = .success ∧
        (readyRobot.playwright = true → readyRobot.browser = true →
          (run_marathon envAllOk readyRobot "HEX-P" ["SN001"]).events =
            successEvents "HEX-P" ["SN001"].length)) :=
  ⟨rfl, rfl, rfl,
    successful_run_events envAllOk readyRobot "HEX-P" ["SN001"] rfl rfl rfl⟩

/-- C4: for every run that fails at step `k` (`1 ≤ k ≤ 10`), the operation
returns `false` and the events are exactly: the first-use startup notices,
then `failEvents k` — the `k` step markers for steps `1..k` in order (with
the intermediate login-confirmation notice after step 1 once step 1 has
completed), so no marker for any step beyond `k` — then exactly one final
error-severity event.  (Step 10 swallows its own exceptions in the source,
so no run fails at step 10 and the claim holds vacuously for `k = 10`;
the witness below shows the `k = 3` instance concretely.) -/
theorem failing_run_events (e : Env) (r : Robot) (p : String)
    (s : List String) (k : Nat) (hr : r.is_running = false) (h1 : 1 ≤ k)
    (h2 : k ≤ 10) (hf : failsAtStep e r k = true) :
    (run_marathon e r p s).result = false ∧
      ∃ last, (run_marathon e r p s).events =
        (ensure_browser e r).events ++ failEvents k p s.length ++ [last] ∧
        last.severity = .error := by
  simp only [failsAtStep, Bool.and_eq_true, Bool.not_eq_true'] at hf
  obtain ⟨⟨hacq, hup⟩, hbad⟩ := hf
  simp only [acqOk, Bool.and_eq_true, Option.isNone_iff_eq_none] at hacq
  obtain ⟨⟨hE, hC⟩, hP⟩ := hacq
  interval_cases k
  · -- k = 1
    simp only [stepOk] at hbad
    cases hG : e.gotoLogin with
    | some m =>
      refine ⟨?_, errorEv m, ?_, rfl⟩ <;>
        simp [run_marathon, hr, acquire, hE, hC, hP, stepEvents, hG,
          outcomeOk, catchEvents, failEvents]
    | none =>
      simp only [step1Ok, hG, Option.isNone_none, Bool.true_and] at hbad
      obtain ⟨hL', hrest⟩ := Bool.or_eq_false_iff.mp hbad
      have hL : e.onLoginPage = true := by
        cases hLc : e.onLoginPage
        · rw [hLc] at hL'; simp at hL'
        · rfl
      cases hF : e.loginForm with
      | some m =>
        refine ⟨?_, errorEv m, ?_, rfl⟩ <;>
          simp [run_marathon, hr, acquire, hE, hC, hP, stepEvents, hG, hL, hF,
            outcomeOk, catchEvents, failEvents]
      | none =>
        have hS : e.stillOnLogin = true := by
          rw [hF] at hrest
          simp at hrest
          exact hrest
        refine ⟨?_, loginFailedEv, ?_, rfl⟩ <;>
          simp [run_marathon, hr, acquire, hE, hC, hP, stepEvents, hG, hL, hF,
            hS, outcomeOk, catchEvents, failEvents]
  · -- k = 2
    simp only [stepsOkUpTo, stepOk, step1Ok, Bool.true_and, Bool.and_eq_true,
      Option.isNone_iff_eq_none] at hup
    obtain ⟨hG, hLok⟩ := hup
    simp only [stepOk] at hbad
    obtain ⟨m, hm⟩ := exists_some_of_isNone_false hbad
    have hrun : runSteps (tailSteps e p s.length) = ([stepEv2], some m) := by
      simp [tailSteps, runSteps, hm]
    obtain ⟨hres, hevs⟩ := run_fail_tail e r p s hr hE hC hP hG hLok hrun
    refine ⟨hres, errorEv m, ?_, rfl⟩
    rw [hevs]
    simp [failEvents, markerList]
  · -- k = 3
    simp only [stepsOkUpTo, stepOk, step1Ok, Bool.true_and, Bool.and_eq_true,
      Option.isNone_iff_eq_none] at hup
    obtain ⟨⟨hG, hLok⟩, h2s⟩ := hup
    simp only [stepOk] at hbad
    obtain ⟨m, hm⟩ := exists_some_of_isNone_false hbad
    have hrun : runSteps (tailSteps e p s.length) =
        ([stepEv2, stepEv3], some m) := by
      simp [tailSteps, runSteps, h2s, hm]
    obtain ⟨hres, hevs⟩ := run_fail_tail e r p s hr hE hC hP hG hLok hrun
    refine ⟨hres, errorEv m, ?_, rfl⟩
    rw [hevs]
    simp [failEvents, markerList]
  · -- k = 4
    simp only [stepsOkUpTo, stepOk, step1Ok, Bool.true_and, Bool.and_eq_true,
      Option.isNone_iff_eq_none] at hup
    obtain ⟨⟨⟨hG, hLok⟩, h2s⟩, h3s⟩ := hup
    simp only [stepOk] at hbad
    obtain ⟨m, hm⟩ := exists_some_of_isNone_false hbad
    have hrun : runSteps (tailSteps e p s.length) =
        ([stepEv2, stepEv3, stepEv4 p], some m) := by
      simp [tailSteps, runSteps, h2s, h3s, hm]
    obtain ⟨hres, hevs⟩ := run_fail_tail e r p s hr hE hC hP hG hLok hrun
    refine ⟨hres, errorEv m, ?_, rfl⟩
    rw [hevs]
    simp [failEvents, markerList]
  · -- k = 5
    simp only [stepsOkUpTo, stepOk, step1Ok, Bool.true_and, Bool.and_eq_true,
      Option.isNone_iff_eq_none] at hup
    obtain ⟨⟨⟨⟨hG, hLok⟩, h2s⟩, h3s⟩, h4s⟩ := hup
    simp only [stepOk] at hbad
    obtain ⟨m, hm⟩ := exists_some_of_isNone_false hbad
    have hrun : runSteps (tailSteps e p s.length) =
        ([stepEv2, stepEv3, stepEv4 p, stepEv5 s.length], some m) := by
      simp [tailSteps, runSteps, h2s, h3s, h4s, hm]
    obtain ⟨hres, hevs⟩ := run_fail_tail e r p s hr hE hC hP hG hLok hrun
    refine ⟨hres, errorEv m, ?_, rfl⟩
    rw [hevs]
    simp [failEvents, markerList]
  · -- k = 6
    simp only [stepsOkUpTo, stepOk, step1Ok, Bool.true_and, Bool.and_eq_true,
      Option.isNone_iff_eq_none] at hup
    obtain ⟨⟨⟨⟨⟨hG, hLok⟩, h2s⟩, h3s⟩, h4s⟩, h5s⟩ := hup
    simp only [stepOk] at hbad
    obtain ⟨m, hm⟩ := exists_some_of_isNone_false hbad
    have hrun : runSteps (tailSteps e p s.length) =
        ([stepEv2, stepEv3, stepEv4 p, stepEv5 s.length, stepEv6], some m) := by
      simp [tailSteps, runSteps, h2s, h3s, h4s, h5s, hm]
    obtain ⟨hres, hevs⟩ := run_fail_tail e r p s hr hE hC hP hG hLok hrun
    refine ⟨hres, errorEv m, ?_, rfl⟩
    rw [hevs]
    simp [failEvents, markerList]
  · -- k = 7
    simp only [stepsOkUpTo, stepOk, step1Ok, Bool.true_and, Bool.and_eq_true,
      Option.isNone_iff_eq_none] at hup
    obtain ⟨⟨⟨⟨⟨⟨hG, hLok⟩, h2s⟩, h3s⟩, h4s⟩, h5s⟩, h6s⟩ := hup
    simp only [stepOk] at hbad
    obtain ⟨m, hm⟩ := exists_some_of_isNone_false hbad
    have hrun : runSteps (tailSteps e p s.length) =
        ([stepEv2, stepEv3, stepEv4 p, stepEv5 s.length, stepEv6, stepEv7],
          some m) := by
      simp [tailSteps, runSteps, h2s, h3s, h4s, h5s, h6s, hm]
    obtain ⟨hres, hevs⟩ := run_fail_tail e r p s hr hE hC hP hG hLok hrun
    refine ⟨hres, errorEv m, ?_, rfl⟩
    rw [hevs]
    simp [failEvents, markerList]
  · -- k = 8
    simp only [stepsOkUpTo, stepOk, step1Ok, Bool.true_and, Bool.and_eq_true,
      Option.isNone_iff_eq_none] at hup
    obtain ⟨⟨⟨⟨⟨⟨⟨hG, hLok⟩, h2s⟩, h3s⟩, h4s⟩, h5s⟩, h6s⟩, h7s⟩ := hup
    simp only [stepOk] at hbad
    obtain ⟨m, hm⟩ := exists_some_of_isNone_false hbad
    have hrun : runSteps (tailSteps e p s.length) =
        ([stepEv2, stepEv3, stepEv4 p, stepEv5 s.length, stepEv6, stepEv7,
          stepEv8], some m) := by
      simp [tailSteps, runSteps, h2s, h3s, h4s, h5s, h6s, h7s, hm]
    obtain ⟨hres, hevs⟩ := run_fail_tail e r p s hr hE hC hP hG hLok hrun
    refine ⟨hres, errorEv m, ?_, rfl⟩
    rw [hevs]
    simp [failEvents, markerList]
  · -- k = 9
    simp only [stepsOkUpTo, stepOk, step1Ok, Bool.true_and, Bool.and_eq_true,
      Option.isNone_iff_eq_none] at hup
    obtain ⟨⟨⟨⟨⟨⟨⟨⟨hG, hLok⟩, h2s⟩, h3s⟩, h4s⟩, h5s⟩, h6s⟩, h7s⟩, h8s⟩ := hup
    simp only [stepOk] at hbad
    obtain ⟨m, hm⟩ := exists_some_of_isNone_false hbad
    have hrun : runSteps (tailSteps e p s.length) =
        ([stepEv2, stepEv3, stepEv4 p, stepEv5 s.length, stepEv6, stepEv7,
          stepEv8, stepEv9], some m) := by
      simp [tailSteps, runSteps, h2s, h3s, h4s, h5s, h6s, h7s, h8s, hm]
    obtain ⟨hres, hevs⟩ := run_fail_tail e r p s hr hE hC hP hG hLok hrun
    refine ⟨hres, errorEv m, ?_, rfl⟩
    rw [hevs]
    simp [failEvents, markerList]
  · -- k = 10: step 10 cannot raise, so no run fails at step 10
    rw [show stepOk e 10 = true from rfl] at hbad
    exact absurd hbad (by decide)

theorem failing_run_events_witness :
    readyRobot.is_running = false ∧ 1 ≤ 3 ∧ 3 ≤ 10 ∧
      failsAtStep envFailStep3 readyRobot 3 = true ∧
      ((run_marathon envFailStep3 readyRobot "HEX-P" ["SN001"]).result = false ∧
        ∃ last, (run_marathon envFailStep3 readyRobot "HEX-P" ["SN001"]).events =
          (ensure_browser envFailStep3 readyRobot).events ++
            failEvents 3 "HEX-P" ["SN001"].length ++ [last] ∧
          last.severity = .error) :=
  ⟨rfl, by decide, by decide, by decide,
    failing_run_events envFailStep3 readyRobot "HEX-P" ["SN001"] 3 rfl
      (by decide) (by decide) (by decide)⟩

/-- C5 (counterexample): `run_marathon` does emit events before resource
acquisition has succeeded.  Each `ensure_browser` block emits its notice
before attempting the creation, so when launching the browser fails the
engine-start and browser-launch notices have already been emitted, and the
top-level handler then emits a terminal error event: three events in an
aborted acquisition, not zero. -/
theorem launch_failure_emits_events :
    envLaunchFail.browserLaunch = some "boom" ∧
      acqOk envLaunchFail freshRobot = false ∧
      (run_marathon envLaunchFail freshRobot "HEX-P" ["SN001"]).events =
        [engineStartEv, browserLaunchEv, errorEv "boom"] ∧
      (run_marathon envLaunchFail freshRobot "HEX-P" ["SN001"]).events ≠ [] :=
  ⟨rfl, rfl, rfl, by decide⟩

/-- C5 (amended): no step event is emitted before resource acquisition has
succeeded: when acquisition (engine start, browser launch, context or page
creation) fails, the run returns `false` and the only events emitted are
the first-use creation notices of `ensure_browser` followed by the single
terminal error event. -/
theorem acquisition_failure_events (e : Env) (r : Robot) (p : String)
    (s : List String) (hr : r.is_running = false) (hacq : acqOk e r = false) :
    (run_marathon e r p s).result = false ∧
      ∃ m, (run_marathon e r p s).events =
        (ensure_browser e r).events ++ [errorEv m] := by
  cases hE : (ensure_browser e r).err with
  | some m =>
    refine ⟨?_, m, ?_⟩ <;>
      simp [run_marathon, hr, acquire, hE, outcomeOk, catchEvents]
  | none =>
    cases hC : e.newContext with
    | some m =>
      refine ⟨?_, m, ?_⟩ <;>
        simp [run_marathon, hr, acquire, hE, hC, outcomeOk, catchEvents]
    | none =>
      cases hP : e.newPage with
      | some m =>
        refine ⟨?_, m, ?_⟩ <;>
          simp [run_marathon, hr, acquire, hE, hC, hP, outcomeOk, catchEvents]
      | none =>
        exfalso
        simp [acqOk, hE, hC, hP] at hacq

theorem acquisition_failure_events_witness :
    freshRobot.is_running = false ∧ acqOk envLaunchFail freshRobot = false ∧
      ((run_marathon envLaunchFail freshRobot "HEX-P" ["SN001"]).result = false ∧
        ∃ m, (run_marathon envLaunchFail freshRobot "HEX-P" ["SN001"]).events =
          (ensure_browser envLaunchFail freshRobot).events ++ [errorEv m]) :=
  ⟨rfl, rfl,
    acquisition_failure_events envLaunchFail freshRobot "HEX-P" ["SN001"] rfl rfl⟩

/-- C6 (counterexample): the handles are not reused across runs for the
server process's lifetime.  `handle_marathon`'s `run_task` creates a fresh
robot per request and calls `robot.cleanup()` in its `finally` block, so
although the completed run itself left both handles live, after the
request finishes both handles have been closed and reset to absent. -/
theorem handles_reset_after_each_run :
    (run_task envAllOk "HEX-P" ["SN001"]).1.robot.playwright = true ∧
      (run_task envAllOk "HEX-P" ["SN001"]).1.robot.browser = true ∧
      (run_task envAllOk "HEX-P" ["SN001"]).2.playwright = false ∧
      (run_task envAllOk "HEX-P" ["SN001"]).2.browser = false :=
  ⟨rfl, rfl, rfl, rfl⟩

/-- C6 (amended): within `run_marathon` the engine and browser handles are
created lazily on first use and are never closed or reset by the run
itself, whatever its outcome — the run leaves exactly the handle state
`ensure_browser` produced, existing handles survive, and nothing is emitted
for them on reuse.  But the request handler (`run_task`) tears both
handles down after every run, so they are not reused across requests. -/
theorem handle_lifecycle (e : Env) (r : Robot) (p : String)
    (s : List String) (hr : r.is_running = false) :
    (run_marathon e r p s).robot.playwright = (ensure_browser e r).playwright ∧
      (run_marathon e r p s).robot.browser = (ensure_browser e r).browser ∧
      (r.playwright = true → (ensure_browser e r).playwright = true) ∧
      (r.browser = true → (ensure_browser e r).browser = true) ∧
      (r.playwright = true → r.browser = true →
        (ensure_browser e r).events = []) ∧
      (run_task e p s).2.playwright = false ∧
      (run_task e p s).2.browser = false := by
  refine ⟨?_, ?_, ?_, ?_, ?_, rfl, rfl⟩
  · simp [run_marathon, hr]
  · simp [run_marathon, hr]
  · intro hpw
    cases hbr : r.browser <;> cases hL : e.browserLaunch <;>
      simp [ensure_browser, hpw, hbr, hL]
  · intro hbr
    cases hpw : r.playwright <;> cases hE : e.engineStart <;>
      simp [ensure_browser, hpw, hbr, hE]
  · intro hpw hbr
    simp [ensure_browser, hpw, hbr]

theorem handle_lifecycle_witness :
    readyRobot.is_running = false ∧
      ((run_marathon envAllOk readyRobot "HEX-P" ["SN001"]).robot.playwright =
          (ensure_browser envAllOk readyRobot).playwright ∧
        (run_marathon envAllOk readyRobot "HEX-P" ["SN001"]).robot.browser =
          (ensure_browser envAllOk readyRobot).browser ∧
        (readyRobot.playwright = true →
          (ensure_browser envAllOk readyRobot).playwright = true) ∧
        (readyRobot.browser = true →
          (ensure_browser envAllOk readyRobot).browser = true) ∧
        (readyRobot.playwright = true → readyRobot.browser = true →
          (ensure_browser envAllOk readyRobot).events = []) ∧
        (run_task envAllOk "HEX-P" ["SN001"]).2.playwright = false ∧
        (run_task envAllOk "HEX-P" ["SN001"]).2.browser = false) :=
  ⟨rfl, handle_lifecycle envAllOk readyRobot "HEX-P" ["SN001"] rfl⟩

/-- C7 (counterexample): page and context are not both torn down exactly
once in every run.  The `finally` block wraps `page.close()` and
`context.close()` in one `try/except: pass`, so when `page.close()` raises,
`context.close()` is never executed: here the context was created but its
close is never attempted (the error is swallowed and the run still returns
`true`). -/
theorem page_close_error_skips_context_close :
    envPageCloseFail.pageClose = some "close failed" ∧
      (run_marathon envPageCloseFail freshRobot "HEX-P" ["SN001"]).ctxCreated = true ∧
      (run_marathon envPageCloseFail freshRobot "HEX-P" ["SN001"]).ctxCloseAttempted = false ∧
      (run_marathon envPageCloseFail freshRobot "HEX-P" ["SN001"]).result = true :=
  ⟨rfl, rfl, rfl, rfl⟩

/-- C7 (amended): for every run, whatever the outcome, the `finally` block
runs exactly once: it clears the single-flight flag, attempts to close the
page iff one was created, and attempts to close the context iff one was
created and the page close did not raise (page and context close share one
error-swallowing block, so a page-close error skips the context close).
Teardown errors are swallowed — result and events are independent of the
teardown environment — and after the run any subsequent `run_marathon` on
the resulting robot passes the guard and runs its own cleanup. -/
theorem teardown_once_and_flag_cleared (e : Env) (r : Robot) (p : String)
    (s : List String) (hr : r.is_running = false) :
    (run_marathon e r p s).finalizerCount = 1 ∧
      (run_marathon e r p s).robot.is_running = false ∧
      (run_marathon e r p s).pageCloseAttempted =
        (run_marathon e r p s).pageCreated ∧
      (run_marathon e r p s).ctxCloseAttempted =
        ((run_marathon e r p s).ctxCreated &&
          (!(run_marathon e r p s).pageCreated || e.pageClose.isNone)) ∧
      (run_marathon { e with pageClose := none, contextClose := none } r p s).result =
        (run_marathon e r p s).result ∧
      (run_marathon { e with pageClose := none, contextClose := none } r p s).events =
        (run_marathon e r p s).events ∧
      ∀ e2 p2 s2, (run_marathon e2 (run_marathon e r p s).robot p2 s2).finalizerCount = 1 := by
  have hflag : (run_marathon e r p s).robot.is_running = false := by
    simp [run_marathon, hr]
  refine ⟨?_, hflag, ?_, ?_, ?_, ?_, ?_⟩
  · simp [run_marathon, hr]
  · simp [run_marathon, hr]
  · simp [run_marathon, hr]
  · simp [run_marathon, hr, acquire_update]
  · simp [run_marathon, hr, acquire_update, ensure_browser_update]
  · intro e2 p2 s2
    generalize hR : (run_marathon e r p s).robot = r' at hflag
    simp [run_marathon, hflag]

theorem teardown_once_and_flag_cleared_witness :
    freshRobot.is_running = false ∧
      ((run_marathon envPageCloseFail freshRobot "HEX-P" ["SN001"]).finalizerCount = 1 ∧
        (run_marathon envPageCloseFail freshRobot "HEX-P" ["SN001"]).robot.is_running = false ∧
        (run_marathon envPageCloseFail freshRobot "HEX-P" ["SN001"]).pageCloseAttempted =
          (run_marathon envPageCloseFail freshRobot "HEX-P" ["SN001"]).pageCreated ∧
        (run_marathon envPageCloseFail freshRobot "HEX-P" ["SN001"]).ctxCloseAttempted =
          ((run_marathon envPageCloseFail freshRobot "HEX-P" ["SN001"]).ctxCreated &&
            (!(run_marathon envPageCloseFail freshRobot "HEX-P" ["SN001"]).pageCreated ||
              envPageCloseFail.pageClose.isNone)) ∧
        (run_marathon { envPageCloseFail with pageClose := none, contextClose := none }
            freshRobot "HEX-P" ["SN001"]).result =
          (run_marathon envPageCloseFail freshRobot "HEX-P" ["SN001"]).result ∧
        (run_marathon { envPageCloseFail with pageClose := none, contextClose := none }
            freshRobot "HEX-P" ["SN001"]).events =
          (run_marathon envPageCloseFail freshRobot "HEX-P" ["SN001"]).events ∧
        ∀ e2 p2 s2, (run_marathon e2
            (run_marathon envPageCloseFail freshRobot "HEX-P" ["SN001"]).robot
            p2 s2).finalizerCount = 1) :=
  ⟨rfl, teardown_once_and_flag_cleared envPageCloseFail freshRobot "HEX-P" ["SN001"] rfl⟩

/-- C8: `detect_product("HEX-P-SOMETHING-123")` yields `"HEX-P"`,
`detect_product("HEXTC-0099")` yields `"HEX-T-C"`, and
`detect_product("ZZZ-001")` yields no detection. -/
theorem detect_product_examples :
    detect_product "HEX-P-SOMETHING-123" = some "HEX-P" ∧
      detect_product "HEXTC-0099" = some "HEX-T-C" ∧
      detect_product "ZZZ-001" = none :=
  ⟨rfl, rfl, rfl⟩

/-- C9: `validate_serials(["AB", "AB", "a*b", "x"])` yields
valid `["AB"]`, duplicates `["AB"]`, and
invalid `[("a*b", "Invalid characters"), ("x", "Too short")]`. -/
theorem validate_serials_example :
    validate_serials ["AB", "AB", "a*b", "x"] =
      ⟨["AB"], ["AB"], [("a*b", "Invalid characters"), ("x", "Too short")]⟩ :=
  rfl

end Marathon
